import Mathlib

/-!
Shallow embedding of the RCA frontend graph pipeline:
the data-cleaning, dual-connection detection and highlight logic of
src/frontend/components/Graph3D.tsx, the highlight-state handlers of
src/frontend/app/graph/page.tsx, and the edge-key construction of
src/frontend/components/ChatDock.tsx.  Parts of the impact-analysis
backend that are not in the repository snapshot are modelled from the
spec and marked as such.
-/

namespace RCA

/-- A JavaScript id value: callers may pass a string or a number. -/
inductive JsId where
  | str (s : String)
  | num (n : Int)
deriving DecidableEq, Repr

/-- JavaScript truthiness of an id value: the empty string and 0 are falsy. -/
def jsTruthy : JsId → Bool
  | .str s => s != ""
  | .num n => n != 0

/-- JavaScript String(v) coercion of an id value. -/
def jsIdToString : JsId → String
  | .str s => s
  | .num n => toString n

/-- Truthiness of a possibly-undefined id value (undefined is falsy). -/
def optTruthy : Option JsId → Bool
  | some v => jsTruthy v
  | none => false

/-- JavaScript String(v) where v may be undefined. -/
def jsStringOpt : Option JsId → String
  | some v => jsIdToString v
  | none => "undefined"

/-- JavaScript toUpperCase, as a character-wise map. -/
def jsToUpper (s : String) : String := ⟨s.data.map Char.toUpper⟩

/-- JavaScript trim: whitespace stripped from both ends. -/
def jsTrim (s : String) : String :=
  ⟨((s.data.dropWhile Char.isWhitespace).reverse.dropWhile
      Char.isWhitespace).reverse⟩

/-- A raw node as received by Graph3D: id and name fields may be absent. -/
structure RawNode where
  id : Option JsId
  name : Option JsId
deriving DecidableEq, Repr

/-- The expression node.id || node.name of Graph3D.tsx line 209:
JavaScript or-chaining takes node.id when truthy, node.name otherwise. -/
def originalId (n : RawNode) : Option JsId :=
  if optTruthy n.id then n.id else n.name

/-- The preservedName computation of Graph3D.tsx lines 224-226. -/
def preservedName (n : RawNode) : String :=
  let nameOk :=
    match n.name with
    | some v => jsTruthy v && jsTrim (jsIdToString v) != ""
    | none => false
  if nameOk then jsStringOpt n.name
  else if optTruthy n.id then jsStringOpt n.id
  else "node"

/-- A cleaned node: id normalized by String coercion, name preserved. -/
structure CleanNode where
  id : String
  name : String
deriving DecidableEq, Repr

/-- One step of the cleanNodes filter and map of Graph3D.tsx lines 202-242:
a null entry or a node with neither id nor name is dropped, every other
node gets id := String(node.id || node.name) and the preserved name. -/
def cleanNode? : Option RawNode → Option CleanNode
  | none => none
  | some n =>
    if n.id.isNone && n.name.isNone then none
    else some { id := jsStringOpt (originalId n), name := preservedName n }

/-- cleanNodes of Graph3D.tsx lines 202-242. -/
def cleanNodes (nodes : List (Option RawNode)) : List CleanNode :=
  nodes.filterMap cleanNode?

/-- The key set of the nodeIdMap built in Graph3D.tsx line 211.  The map
sends String(originalId) to the identical string, so it is determined by
its key set: the normalized ids of the cleaned nodes. -/
def nodeIdKeys (nodes : List (Option RawNode)) : List String :=
  (cleanNodes nodes).map CleanNode.id

/-- A link endpoint as received by Graph3D: either a primitive id value
or an object carrying an optional id field. -/
inductive LinkEnd where
  | prim (v : JsId)
  | obj (id : Option JsId)
deriving DecidableEq, Repr

/-- The value of link.source?.id || link.source (Graph3D.tsx line 248):
undefined when the endpoint is absent, the primitive itself for a
primitive endpoint, the object id when truthy, else the object itself. -/
inductive EndVal where
  | undef
  | val (v : JsId)
  | objRef (i : Option JsId)
deriving DecidableEq, Repr

/-- Evaluates link.source?.id || link.source on an optional endpoint. -/
def rawEndVal : Option LinkEnd → EndVal
  | none => .undef
  | some (.prim v) => .val v
  | some (.obj i) =>
    match i with
    | some v => if jsTruthy v then .val v else .objRef (some v)
    | none => .objRef none

/-- The strict-equality test sourceId === undefined used by the filter. -/
def endDefined : EndVal → Bool
  | .undef => false
  | .val _ => true
  | .objRef _ => true

/-- JavaScript String(v) on an endpoint value: an object stringifies to
the standard object tag. -/
def endToString : EndVal → String
  | .undef => "undefined"
  | .val v => jsIdToString v
  | .objRef _ => "[object Object]"

/-- A raw link as received by Graph3D. -/
structure RawLink where
  source : Option LinkEnd
  target : Option LinkEnd
  kind : Option String
  typeField : Option String
deriving DecidableEq, Repr

/-- A cleaned link after endpoint resolution: both endpoints are
canonical id strings, the kind and type fields are carried through. -/
structure CleanLinkMid where
  source : String
  target : String
  kind : Option String
  typeField : Option String
deriving DecidableEq, Repr

/-- One step of the cleanLinks filter and map of Graph3D.tsx lines
244-269: a null link, a link with an undefined endpoint, or a link whose
endpoint string is not a key of nodeIdMap is dropped; a kept link gets
its endpoints replaced by the map values, which equal the coerced
strings. -/
def cleanLink? (keys : List String) : Option RawLink → Option CleanLinkMid
  | none => none
  | some l =>
    let s := rawEndVal l.source
    let t := rawEndVal l.target
    if endDefined s && endDefined t
        && keys.contains (endToString s) && keys.contains (endToString t) then
      some { source := endToString s, target := endToString t,
             kind := l.kind, typeField := l.typeField }
    else none

/-- cleanLinks of Graph3D.tsx lines 244-269. -/
def cleanLinks (nodes : List (Option RawNode)) (links : List (Option RawLink)) :
    List CleanLinkMid :=
  links.filterMap (cleanLink? (nodeIdKeys nodes))

/-- JavaScript or-chaining a || d on an optional string with default d:
undefined and the empty string are falsy. -/
def jsOrStr : Option String → String → String
  | some s, d => if s == "" then d else s
  | none, d => d

/-- The flat key source-target used by edgeTypeMap (Graph3D.tsx line 277). -/
def linkKey (l : CleanLinkMid) : String :=
  l.source ++ "-" ++ l.target

/-- The edge type (link.kind || link.type || HTTP).toUpperCase() of
Graph3D.tsx line 279. -/
def edgeType (l : CleanLinkMid) : String :=
  jsToUpper (jsOrStr l.kind (jsOrStr l.typeField "HTTP"))

/-- The set of edge types accumulated for one key by the edgeTypeMap
forEach of Graph3D.tsx lines 272-285: the types of all links sharing the
flat key, each recorded once, in first-occurrence order. -/
def edgeTypesFor (links : List CleanLinkMid) (key : String) : List String :=
  links.foldl
    (fun acc l =>
      if linkKey l == key && !(acc.contains (edgeType l)) then acc ++ [edgeType l]
      else acc)
    []

/-- A cleaned link annotated with the dual-connection flag. -/
structure CleanLink where
  source : String
  target : String
  kind : Option String
  typeField : Option String
  hasBothTypes : Bool
deriving DecidableEq, Repr

/-- cleanLinksWithDualFlag of Graph3D.tsx lines 288-301: each link is
flagged when the type set of its flat key contains both HTTP and KAFKA. -/
def cleanLinksWithDualFlag (links : List CleanLinkMid) : List CleanLink :=
  links.map (fun l =>
    let edgeTypes := edgeTypesFor links (linkKey l)
    { source := l.source, target := l.target,
      kind := l.kind, typeField := l.typeField,
      hasBothTypes := edgeTypes.contains "HTTP" && edgeTypes.contains "KAFKA" })

/-- The isHighlighted test shared verbatim by the linkColor and linkWidth
callbacks of Graph3D.tsx (lines 382-419): a link is highlighted when the
highlighted-links set contains its flat key or the reverse key, or when a
truthy (non-empty) endpoint id is in the highlighted-nodes set. -/
def isHighlightedLink (highlightedLinks highlightedNodes : List String)
    (l : CleanLink) : Bool :=
  let sourceId := l.source
  let targetId := l.target
  let lKey := sourceId ++ "-" ++ targetId
  let reverseLinkKey := targetId ++ "-" ++ sourceId
  highlightedLinks.contains lKey || highlightedLinks.contains reverseLinkKey ||
    (sourceId != "" && highlightedNodes.contains sourceId) ||
    (targetId != "" && highlightedNodes.contains targetId)

/-- The linkColor callback of Graph3D.tsx lines 382-407. -/
def linkColor (highlightedLinks highlightedNodes : List String)
    (l : CleanLink) : String :=
  if isHighlightedLink highlightedLinks highlightedNodes l then "#ff6b6b"
  else if l.hasBothTypes then "#00aaff"
  else if l.kind == some "Kafka" || l.typeField == some "Kafka"
      || l.kind == some "KAFKA" || l.typeField == some "KAFKA" then "#ffd700"
  else "#ffffff"

/-- The linkWidth callback of Graph3D.tsx lines 408-419, in pixels. -/
def linkWidth (highlightedLinks highlightedNodes : List String)
    (l : CleanLink) : ℚ :=
  if isHighlightedLink highlightedLinks highlightedNodes l then 1/10 else 2/10

/-- Construction of a JavaScript Set from an array, modelled as the list
of first occurrences: new Set(xs) keeps each element once. -/
def jsSetOf (l : List String) : List String :=
  l.foldl (fun acc x => if acc.contains x then acc else acc ++ [x]) []

/-- handleHighlightNodes of app/graph/page.tsx lines 61-63: the new
highlighted-nodes state is new Set(nodeIds). -/
def handleHighlightNodes (nodeIds : List String) : List String :=
  jsSetOf nodeIds

/-- handleHighlightLinks of app/graph/page.tsx lines 65-67: the new
highlighted-links state is new Set(linkIds). -/
def handleHighlightLinks (linkIds : List String) : List String :=
  jsSetOf linkIds

/-- An edge of an analysis response, with string source and target ids. -/
structure RespEdge where
  source : String
  target : String
deriving DecidableEq, Repr

/-- The link keys built from affected_edges in the error-analyzer branch
of ChatDock.tsx lines 79-81. -/
def errorAffectedLinkKeys (edges : List RespEdge) : List String :=
  edges.map (fun edge => edge.source ++ "-" ++ edge.target)

/-- The link keys built from blast_radius_edges in the what-if branch of
ChatDock.tsx lines 114-116. -/
def whatIfBlastLinkKeys (edges : List RespEdge) : List String :=
  edges.map (fun edge => edge.source ++ "-" ++ edge.target)

/-- Construction of a JavaScript Set from an array of raw id values,
keeping first occurrences; Set membership uses strict equality, so a
number member and a string member never collide. -/
def jsSetOfIds (l : List JsId) : List JsId :=
  l.foldl (fun acc x => if acc.contains x then acc else acc ++ [x]) []

/-- The highlighted-nodes state after an error analysis: ChatDock.tsx
line 73 hands response.data.affected_nodes to onHighlightNodes without
coercion, and the page handler (page.tsx lines 61-63) stores
new Set(nodeIds), so the state holds the raw response values. -/
def errorHighlightedNodes (affected_nodes : List JsId) : List JsId :=
  jsSetOfIds affected_nodes

/-- The changed-nodes state after a what-if analysis: ChatDock.tsx line
95 coerces each changed service id with String before handing it to
onChangedNodes, and the page handler (page.tsx lines 73-75) stores
new Set(nodeIds), so this state holds coerced strings. -/
def whatIfChangedNodes (changed_service_ids : List JsId) : List String :=
  jsSetOf (changed_service_ids.map jsIdToString)

/-- getNodeColor of Graph3D.tsx lines 83-117.  The changed-nodes set
holds coerced strings, the highlighted-nodes set holds whatever runtime
values its caller supplied; the graph-side id is coerced with String
before each membership test, and the sourceNode comparison coerces both
sides behind a truthiness guard. -/
def getNodeColor (changedNodes : List String) (sourceNode : Option String)
    (highlightedNodes : List JsId) (selectedNodeId : Option String)
    (node : CleanNode) : String :=
  let nodeId := node.id
  let isWhatIfMode := !changedNodes.isEmpty
  if changedNodes.contains nodeId then "#00aaff"
  else if (match sourceNode with
           | some s => s != "" && nodeId == s
           | none => false) then "#ff0000"
  else if highlightedNodes.contains (JsId.str nodeId) then
    (if isWhatIfMode then "#ff0000" else "#ffd700")
  else if selectedNodeId == some nodeId then "#ffd700"
  else "#00ff00"

/-- The validation failure of the spec Graph Store build contract. -/
inductive ValidationError where
  | danglingEdge
deriving DecidableEq, Repr

/-- Whether a raw link is a dangling edge: both endpoints are defined but
at least one coerced endpoint string is not a known node id. -/
def danglingLink (keys : List String) : Option RawLink → Bool
  | none => false
  | some l =>
    let s := rawEndVal l.source
    let t := rawEndVal l.target
    endDefined s && endDefined t
      && !(keys.contains (endToString s) && keys.contains (endToString t))

/-- Modelled from the spec: the Graph Store build contract of sections
4.1 and 7 over the same raw inputs the frontend receives — build fails
with a ValidationError whenever some edge references a node id that is
not present in the node list, and otherwise returns the graph. -/
def buildSpec (nodes : List (Option RawNode)) (links : List (Option RawLink)) :
    Except ValidationError (List CleanNode × List CleanLinkMid) :=
  if links.any (danglingLink (nodeIdKeys nodes)) then
    Except.error ValidationError.danglingEdge
  else
    Except.ok (cleanNodes nodes, cleanLinks nodes links)

/-- Modelled from the spec: the Graph Store of the impact-analysis
backend, which is not under src (only its frontend callers are): a node
id list and a directed edge list. -/
structure SpecGraph where
  nodes : List String
  edges : List (String × String)
deriving DecidableEq, Repr

/-- Outgoing edges of a node, in graph order. -/
def outgoing (g : SpecGraph) (n : String) : List (String × String) :=
  g.edges.filter (fun e => e.1 == n)

/-- One BFS level: the newly discovered nodes reached from the frontier
and, for each, the edge traversed to reach it first. -/
def expandFrontier (g : SpecGraph) (visited frontier : List String) :
    List String × List (String × String) :=
  (frontier.map (outgoing g)).flatten.foldl
    (fun acc e =>
      if visited.contains e.2 || acc.1.contains e.2 then acc
      else (acc.1 ++ [e.2], acc.2 ++ [e]))
    ([], [])

/-- Fueled multi-source BFS collecting visited nodes and traversal edges. -/
def bfsAux (g : SpecGraph) :
    Nat → List String → List String → List (String × String) →
    List String × List (String × String)
  | 0, _, visited, tedges => (visited, tedges)
  | fuel + 1, frontier, visited, tedges =>
    let step := expandFrontier g visited frontier
    if step.1.isEmpty then (visited, tedges)
    else bfsAux g fuel step.1 (visited ++ step.1) (tedges ++ step.2)

/-- Modelled from the spec: reachableFrom of the Traversal Engine
(section 4.2), downstream, unbounded depth — multi-source BFS whose edge
set is exactly the edges traversed to reach each newly discovered node. -/
def reachableFrom (g : SpecGraph) (origins : List String) :
    List String × List (String × String) :=
  bfsAux g g.nodes.length origins origins []

/-- The result shape of the error-propagation query. -/
structure ImpactResult where
  origin : String
  affected_nodes : List String
  affected_edges : List (String × String)
  notFound : Bool
deriving DecidableEq, Repr

/-- Modelled from the spec: analyzeError of the Impact Query Facade
(sections 4.4 and 7), which is not under src: downstream reachability
from a single origin; an origin id not present in the Graph Store yields
an empty result with the origin echoed and a not-found indicator instead
of a thrown fault. -/
def analyzeError (g : SpecGraph) (originNodeId : String) : ImpactResult :=
  if g.nodes.contains originNodeId then
    let r := reachableFrom g [originNodeId]
    { origin := originNodeId, affected_nodes := r.1,
      affected_edges := r.2, notFound := false }
  else
    { origin := originNodeId, affected_nodes := [],
      affected_edges := [], notFound := true }

/-! Helper lemmas. -/

/-- Membership through the Set-construction fold: an element is in the
result exactly when it is in the accumulator or in the input list. -/
theorem jsSetOf_fold_mem (l : List String) : ∀ acc x,
    (x ∈ l.foldl (fun a y => if a.contains y then a else a ++ [y]) acc)
      ↔ x ∈ acc ∨ x ∈ l := by
  induction l with
  | nil => intro acc x; simp
  | cons y ys ih =>
    intro acc x
    simp only [List.foldl_cons]
    rw [ih]
    by_cases hy : y ∈ acc
    · rw [if_pos (by simpa using hy)]
      constructor
      · exact fun h => h.imp_right (List.mem_cons_of_mem _)
      · rintro (h | h)
        · exact Or.inl h
        · rcases List.mem_cons.mp h with rfl | h2
          · exact Or.inl hy
          · exact Or.inr h2
    · rw [if_neg (by simpa using hy)]
      simp only [List.mem_append, List.mem_cons, List.mem_singleton]
      tauto

/-- The Set-construction fold preserves freedom from duplicates. -/
theorem jsSetOf_fold_nodup (l : List String) : ∀ acc : List String, acc.Nodup →
    (l.foldl (fun a y => if a.contains y then a else a ++ [y]) acc).Nodup := by
  induction l with
  | nil => intro acc h; simpa using h
  | cons y ys ih =>
    intro acc h
    simp only [List.foldl_cons]
    by_cases hy : y ∈ acc
    · rw [if_pos (by simpa using hy)]
      exact ih acc h
    · rw [if_neg (by simpa using hy)]
      refine ih _ ?_
      simp [List.nodup_append, h, hy]

/-- Membership through the Set-construction fold over raw id values. -/
theorem jsSetOfIds_fold_mem (l : List JsId) : ∀ acc x,
    (x ∈ l.foldl (fun a y => if a.contains y then a else a ++ [y]) acc)
      ↔ x ∈ acc ∨ x ∈ l := by
  induction l with
  | nil => intro acc x; simp
  | cons y ys ih =>
    intro acc x
    simp only [List.foldl_cons]
    rw [ih]
    by_cases hy : y ∈ acc
    · rw [if_pos (by simpa using hy)]
      constructor
      · exact fun h => h.imp_right (List.mem_cons_of_mem _)
      · rintro (h | h)
        · exact Or.inl h
        · rcases List.mem_cons.mp h with rfl | h2
          · exact Or.inl hy
          · exact Or.inr h2
    · rw [if_neg (by simpa using hy)]
      simp only [List.mem_append, List.mem_cons, List.mem_singleton]
      tauto

/-- Every link kept by cleanLinks has both endpoint strings among the
keys of the node-id map. -/
theorem cleanLinks_endpoints_mem (nodes : List (Option RawNode))
    (links : List (Option RawLink)) (l : CleanLinkMid)
    (h : l ∈ cleanLinks nodes links) :
    l.source ∈ nodeIdKeys nodes ∧ l.target ∈ nodeIdKeys nodes := by
  rcases List.mem_filterMap.mp h with ⟨raw, _, hmap⟩
  match raw with
  | none => simp [cleanLink?] at hmap
  | some rl =>
    simp only [cleanLink?] at hmap
    split at hmap
    · rename_i hcond
      injection hmap with hl
      subst hl
      simp only [Bool.and_eq_true] at hcond
      constructor
      · simpa using hcond.1.2
      · simpa using hcond.2
    · exact absurd hmap (by simp)

/-- Every node kept by cleanNodes carries the plain String coercion of
its original id as its canonical id. -/
theorem cleanNodes_id_coerced (nodes : List (Option RawNode))
    (cn : CleanNode) (h : cn ∈ cleanNodes nodes) :
    ∃ rn : RawNode, some rn ∈ nodes ∧ cn.id = jsStringOpt (originalId rn) := by
  rcases List.mem_filterMap.mp h with ⟨raw, hraw, hmap⟩
  match raw with
  | none => simp [cleanNode?] at hmap
  | some rn =>
    simp only [cleanNode?] at hmap
    split at hmap
    · exact absurd hmap (by simp)
    · injection hmap with hl
      subst hl
      exact ⟨rn, hraw, rfl⟩

/-- Membership through the edgeTypeMap fold for one key: a type string
is recorded exactly when some link with that flat key has that type. -/
theorem edgeTypesFor_fold_mem (links : List CleanLinkMid) (key : String) :
    ∀ acc t,
      (t ∈ links.foldl
          (fun acc l =>
            if linkKey l == key && !(acc.contains (edgeType l))
            then acc ++ [edgeType l] else acc) acc)
        ↔ t ∈ acc ∨ ∃ l ∈ links, linkKey l = key ∧ edgeType l = t := by
  induction links with
  | nil => intro acc t; simp
  | cons x xs ih =>
    intro acc t
    simp only [List.foldl_cons]
    rw [ih]
    by_cases hk : linkKey x = key
    · by_cases hc : edgeType x ∈ acc
      · rw [if_neg (by simp [hk, hc])]
        simp only [List.mem_cons]
        constructor
        · rintro (h | ⟨l, hl, hkey, ht⟩)
          · exact Or.inl h
          · exact Or.inr ⟨l, Or.inr hl, hkey, ht⟩
        · rintro (h | ⟨l, hl, hkey, ht⟩)
          · exact Or.inl h
          · rcases hl with rfl | hl
            · exact Or.inl (ht ▸ hc)
            · exact Or.inr ⟨l, hl, hkey, ht⟩
      · rw [if_pos (by simp [hk, hc])]
        simp only [List.mem_append, List.mem_singleton, List.mem_cons,
          List.not_mem_nil, or_false]
        constructor
        · rintro ((h | rfl) | ⟨l, hl, hkey, ht⟩)
          · exact Or.inl h
          · exact Or.inr ⟨x, Or.inl rfl, hk, rfl⟩
          · exact Or.inr ⟨l, Or.inr hl, hkey, ht⟩
        · rintro (h | ⟨l, hl, hkey, ht⟩)
          · exact Or.inl (Or.inl h)
          · rcases hl with rfl | hl
            · exact Or.inl (Or.inr ht.symm)
            · exact Or.inr ⟨l, hl, hkey, ht⟩
    · rw [if_neg (by simp [hk])]
      simp only [List.mem_cons]
      constructor
      · rintro (h | ⟨l, hl, hkey, ht⟩)
        · exact Or.inl h
        · exact Or.inr ⟨l, Or.inr hl, hkey, ht⟩
      · rintro (h | ⟨l, hl, hkey, ht⟩)
        · exact Or.inl h
        · rcases hl with rfl | hl
          · exact absurd hkey hk
          · exact Or.inr ⟨l, hl, hkey, ht⟩

/-- Characterization of the type set recorded for a flat key. -/
theorem edgeTypesFor_mem (links : List CleanLinkMid) (key t : String) :
    t ∈ edgeTypesFor links key ↔ ∃ l ∈ links, linkKey l = key ∧ edgeType l = t := by
  simpa [edgeTypesFor] using edgeTypesFor_fold_mem links key [] t

/-! Claim theorems. -/

/-- C1 (amended): a link whose source or target id is not among the node
ids is silently filtered out at construction: every link of the cleaned
graph used by later queries has both endpoints among the node-id keys. -/
theorem C1_dangling_edges_never_in_graph (nodes : List (Option RawNode))
    (links : List (Option RawLink)) (l : CleanLinkMid)
    (h : l ∈ cleanLinks nodes links) :
    l.source ∈ nodeIdKeys nodes ∧ l.target ∈ nodeIdKeys nodes :=
  cleanLinks_endpoints_mem nodes links l h

/-- Witness for C1 on a concrete two-node graph with one kept link. -/
theorem C1_dangling_edges_never_in_graph_witness :
    (⟨"a", "b", none, none⟩ : CleanLinkMid).source
        ∈ nodeIdKeys [some ⟨some (.str "a"), none⟩, some ⟨some (.str "b"), none⟩] ∧
    (⟨"a", "b", none, none⟩ : CleanLinkMid).target
        ∈ nodeIdKeys [some ⟨some (.str "a"), none⟩, some ⟨some (.str "b"), none⟩] :=
  C1_dangling_edges_never_in_graph
    [some ⟨some (.str "a"), none⟩, some ⟨some (.str "b"), none⟩]
    [some ⟨some (.prim (.str "a")), some (.prim (.str "b")), none, none⟩]
    ⟨"a", "b", none, none⟩ (by decide)

/-- Counterexample for C1 as stated: on a node list with only node a and
an edge a to b, the spec build contract demands a ValidationError, but
the code instead succeeds, silently returning the graph without the
dangling edge. -/
theorem C1_counterexample :
    buildSpec [some ⟨some (.str "a"), none⟩]
        [some ⟨some (.prim (.str "a")), some (.prim (.str "b")), none, none⟩]
      = Except.error ValidationError.danglingEdge ∧
    cleanLinks [some ⟨some (.str "a"), none⟩]
        [some ⟨some (.prim (.str "a")), some (.prim (.str "b")), none, none⟩] = [] ∧
    cleanNodes [some ⟨some (.str "a"), none⟩] = [⟨"a", "a"⟩] :=
  ⟨rfl, by decide, by decide⟩

/-- C2: for a link from A to B, the highlighted-links set matching is
direction-agnostic: containing the key A-B or the reverse key B-A both
resolve the link as highlighted, for the colour and for the width. -/
theorem C2_reverse_key_highlights (A B : String) (S N : List String)
    (kind typeField : Option String) (dual : Bool)
    (h : S.contains (A ++ "-" ++ B) = true ∨ S.contains (B ++ "-" ++ A) = true) :
    linkColor S N ⟨A, B, kind, typeField, dual⟩ = "#ff6b6b" ∧
    linkWidth S N ⟨A, B, kind, typeField, dual⟩ = 1 / 10 := by
  have hl : isHighlightedLink S N ⟨A, B, kind, typeField, dual⟩ = true := by
    rcases h with h | h
    · replace h : A ++ "-" ++ B ∈ S := by simpa using h
      simp [isHighlightedLink, h]
    · replace h : B ++ "-" ++ A ∈ S := by simpa using h
      simp [isHighlightedLink, h]
  simp [linkColor, linkWidth, hl]

/-- Witness for C2 at a concrete reverse-key input. -/
theorem C2_reverse_key_highlights_witness :
    linkColor ["b-a"] [] ⟨"a", "b", none, none, false⟩ = "#ff6b6b" ∧
    linkWidth ["b-a"] [] ⟨"a", "b", none, none, false⟩ = 1 / 10 :=
  C2_reverse_key_highlights "a" "b" ["b-a"] [] none none false (Or.inr (by decide))

/-- C4 (spec-modelled): analyzeError on an origin id not present in the
graph store returns empty affected nodes and edges, echoes the origin
and sets the not-found indicator; being a total function it never throws. -/
theorem C4_unknown_origin_empty (g : SpecGraph) (o : String) (h : o ∉ g.nodes) :
    analyzeError g o
      = { origin := o, affected_nodes := [], affected_edges := [],
          notFound := true } := by
  have hc : g.nodes.contains o = false := by simpa using h
  simp [analyzeError, hc, h]

/-- Witness for C4 at a concrete unknown origin. -/
theorem C4_unknown_origin_empty_witness :
    analyzeError ⟨["A", "B"], [("A", "B")]⟩ "does-not-exist"
      = { origin := "does-not-exist", affected_nodes := [],
          affected_edges := [], notFound := true } :=
  C4_unknown_origin_empty ⟨["A", "B"], [("A", "B")]⟩ "does-not-exist" (by decide)

/-- C7: the highlighted-nodes and highlighted-links states built by the
page handlers are sets: duplicate-free, with exactly the members of the
input arrays. -/
theorem C7_highlight_states_are_sets (nodeIds linkIds : List String) :
    (handleHighlightNodes nodeIds).Nodup ∧ (handleHighlightLinks linkIds).Nodup ∧
    (∀ x, x ∈ handleHighlightNodes nodeIds ↔ x ∈ nodeIds) ∧
    (∀ x, x ∈ handleHighlightLinks linkIds ↔ x ∈ linkIds) := by
  refine ⟨jsSetOf_fold_nodup nodeIds [] List.nodup_nil,
          jsSetOf_fold_nodup linkIds [] List.nodup_nil, ?_, ?_⟩ <;>
    intro x <;>
      simpa [handleHighlightNodes, handleHighlightLinks, jsSetOf] using
        jsSetOf_fold_mem _ [] x

/-- C8: the link keys handed to highlighting are exactly the source id,
a hyphen, and the target id, positionally, for the error-analyzer edges
and for the what-if blast-radius edges. -/
theorem C8_edge_key_concatenation (edges : List RespEdge) (i : Nat) :
    (errorAffectedLinkKeys edges)[i]?
        = (edges[i]?).map (fun e => e.source ++ "-" ++ e.target) ∧
    (whatIfBlastLinkKeys edges)[i]?
        = (edges[i]?).map (fun e => e.source ++ "-" ++ e.target) := by
  constructor <;> simp [errorAffectedLinkKeys, whatIfBlastLinkKeys]

/-- C9 (amended): a link resolves as highlighted whenever its flat key
is in the highlighted-links set, and also whenever a non-empty endpoint
id is in the highlighted-nodes set, so highlighted links can include
edges whose keys were never supplied. -/
theorem C9_node_membership_highlights (S N : List String) (l : CleanLink)
    (h : (l.source ≠ "" ∧ N.contains l.source = true)
       ∨ (l.target ≠ "" ∧ N.contains l.target = true)
       ∨ S.contains (l.source ++ "-" ++ l.target) = true) :
    isHighlightedLink S N l = true ∧
    linkColor S N l = "#ff6b6b" ∧ linkWidth S N l = 1 / 10 := by
  have hl : isHighlightedLink S N l = true := by
    rcases h with ⟨h1, h2⟩ | ⟨h1, h2⟩ | h
    · replace h2 : l.source ∈ N := by simpa using h2
      simp [isHighlightedLink, h1, h2]
    · replace h2 : l.target ∈ N := by simpa using h2
      simp [isHighlightedLink, h1, h2]
    · replace h : l.source ++ "-" ++ l.target ∈ S := by simpa using h
      simp [isHighlightedLink, h]
  exact ⟨hl, by simp [linkColor, hl], by simp [linkWidth, hl]⟩

/-- Witness for C9: with no supplied link keys at all, a link with a
highlighted endpoint still renders highlighted. -/
theorem C9_node_membership_highlights_witness :
    isHighlightedLink [] ["a"] ⟨"a", "b", none, none, false⟩ = true ∧
    linkColor [] ["a"] ⟨"a", "b", none, none, false⟩ = "#ff6b6b" ∧
    linkWidth [] ["a"] ⟨"a", "b", none, none, false⟩ = 1 / 10 :=
  C9_node_membership_highlights [] ["a"] ⟨"a", "b", none, none, false⟩
    (Or.inl ⟨by decide, by decide⟩)

/-- Counterexample for C9 as stated: a link whose source id is the empty
string is not highlighted even though that id is in the highlighted-nodes
set, because the code guards node membership behind truthiness. -/
theorem C9_counterexample :
    (("" : String) ∈ ([""] : List String)) ∧
    isHighlightedLink [] [""] ⟨"", "t", none, none, false⟩ = false ∧
    linkColor [] [""] ⟨"", "t", none, none, false⟩ = "#ffffff" := by
  decide

/-- C10: the flat edge key is not injective on ids containing a hyphen:
the distinct edges ab to c and a to bc share one key string, and the key
of the first also resolves the second as highlighted. -/
theorem C10_flat_key_collision :
    errorAffectedLinkKeys [⟨"a-b", "c"⟩] = errorAffectedLinkKeys [⟨"a", "b-c"⟩] ∧
    (⟨"a-b", "c"⟩ : RespEdge) ≠ ⟨"a", "b-c"⟩ ∧
    isHighlightedLink (errorAffectedLinkKeys [⟨"a-b", "c"⟩]) []
      ⟨"a", "b-c", none, none, false⟩ = true := by
  decide

/-- C3 (amended): a link is flagged as part of a dual-connection pair
exactly when, among the links whose flat key string equals its own, the
uppercased kinds include both HTTP and KAFKA; the flag is a function of
the link list alone. -/
theorem C3_dual_flag_by_flat_key (links : List CleanLinkMid) (cl : CleanLink)
    (h : cl ∈ cleanLinksWithDualFlag links) :
    cl.hasBothTypes = true ↔
      ((∃ l ∈ links, linkKey l = cl.source ++ "-" ++ cl.target ∧ edgeType l = "HTTP") ∧
       (∃ l ∈ links, linkKey l = cl.source ++ "-" ++ cl.target ∧ edgeType l = "KAFKA")) := by
  rcases List.mem_map.mp h with ⟨l0, hl0, rfl⟩
  show ((edgeTypesFor links (linkKey l0)).contains "HTTP"
      && (edgeTypesFor links (linkKey l0)).contains "KAFKA") = true ↔
    ((∃ l ∈ links, linkKey l = l0.source ++ "-" ++ l0.target ∧ edgeType l = "HTTP") ∧
     (∃ l ∈ links, linkKey l = l0.source ++ "-" ++ l0.target ∧ edgeType l = "KAFKA"))
  rw [Bool.and_eq_true]
  constructor
  · rintro ⟨h1, h2⟩
    have m1 : "HTTP" ∈ edgeTypesFor links (linkKey l0) := by simpa using h1
    have m2 : "KAFKA" ∈ edgeTypesFor links (linkKey l0) := by simpa using h2
    exact ⟨(edgeTypesFor_mem _ _ _).mp m1, (edgeTypesFor_mem _ _ _).mp m2⟩
  · rintro ⟨h1, h2⟩
    have m1 := (edgeTypesFor_mem links (linkKey l0) "HTTP").mpr h1
    have m2 := (edgeTypesFor_mem links (linkKey l0) "KAFKA").mpr h2
    constructor
    · simpa using m1
    · simpa using m2

/-- Witness for C3 on a pair with a lowercase http link and a Kafka
link: both are flagged, and both kinds are recorded for the shared key. -/
theorem C3_dual_flag_by_flat_key_witness :
    (⟨"x", "y", some "http", none, true⟩ : CleanLink).hasBothTypes = true ↔
      ((∃ l ∈ [(⟨"x", "y", some "http", none⟩ : CleanLinkMid),
               ⟨"x", "y", some "Kafka", none⟩],
          linkKey l = "x" ++ "-" ++ "y" ∧ edgeType l = "HTTP") ∧
       (∃ l ∈ [(⟨"x", "y", some "http", none⟩ : CleanLinkMid),
               ⟨"x", "y", some "Kafka", none⟩],
          linkKey l = "x" ++ "-" ++ "y" ∧ edgeType l = "KAFKA")) :=
  C3_dual_flag_by_flat_key
    [⟨"x", "y", some "http", none⟩, ⟨"x", "y", some "Kafka", none⟩]
    ⟨"x", "y", some "http", none, true⟩ (by decide)

/-- Counterexample for C3 as stated: with an HTTP link from ab to c and
a KAFKA link from a to bc, the two distinct ordered pairs share the flat
key, so the first link is flagged dual although among links with its own
ordered pair only HTTP occurs. -/
theorem C3_counterexample :
    (cleanLinksWithDualFlag
        [⟨"a-b", "c", some "HTTP", none⟩, ⟨"a", "b-c", some "KAFKA", none⟩]).map
        CleanLink.hasBothTypes = [true, true] ∧
    (([⟨"a-b", "c", some "HTTP", none⟩, ⟨"a", "b-c", some "KAFKA", none⟩]
        : List CleanLinkMid).filter
        (fun l => l.source == "a-b" && l.target == "c")).map edgeType
      = ["HTTP"] := by
  decide

/-- C5 (amended): when a kind uppercases to KAFKA, dual-connection
detection classifies the link as KAFKA, while the colouring of an
unhighlighted, non-dual link is golden only for the exact spellings
Kafka and KAFKA. -/
theorem C5_kafka_classification_divergence (k : String) (S N : List String)
    (hup : jsToUpper k = "KAFKA")
    (hnh : isHighlightedLink S N ⟨"s", "t", some k, none, false⟩ = false) :
    edgeType ⟨"s", "t", some k, none⟩ = "KAFKA" ∧
    (linkColor S N ⟨"s", "t", some k, none, false⟩ = "#ffd700"
      ↔ (k = "Kafka" ∨ k = "KAFKA")) := by
  have hk : k ≠ "" := by
    intro he
    subst he
    exact absurd hup (by decide)
  constructor
  · simp [edgeType, jsOrStr, hk, hup]
  · have hform : linkColor S N ⟨"s", "t", some k, none, false⟩
        = if (k == "Kafka" || k == "KAFKA") then "#ffd700" else "#ffffff" := by
      simp only [linkColor, hnh, Bool.false_eq_true, if_false]
      by_cases h1 : k = "Kafka"
      · simp [h1]
      · by_cases h2 : k = "KAFKA"
        · simp [h2]
        · simp [h1, h2]
    rw [hform]
    by_cases h1 : k = "Kafka"
    · simp [h1]
    · by_cases h2 : k = "KAFKA"
      · simp [h2]
      · simp only [h1, h2]
        constructor
        · intro hcol
          rw [if_neg (by simp [h1, h2])] at hcol
          exact absurd hcol (by decide)
        · rintro (h | h) <;> exact h.elim

/-- Witness for C5 at the lowercase spelling kafka: classified KAFKA by
dual detection, yet not coloured golden. -/
theorem C5_kafka_classification_divergence_witness :
    edgeType ⟨"s", "t", some "kafka", none⟩ = "KAFKA" ∧
    (linkColor [] [] ⟨"s", "t", some "kafka", none, false⟩ = "#ffd700"
      ↔ (("kafka" : String) = "Kafka" ∨ ("kafka" : String) = "KAFKA")) :=
  C5_kafka_classification_divergence "kafka" [] [] (by decide) (by decide)

/-- Counterexample for C5 as stated: a link of kind kafka is recorded as
KAFKA by dual-connection detection but coloured white, the HTTP colour,
by the link colouring, so the classification is not identical at every
consumption site. -/
theorem C5_counterexample :
    edgeTypesFor [⟨"s", "t", some "kafka", none⟩] "s-t" = ["KAFKA"] ∧
    (cleanLinksWithDualFlag [⟨"s", "t", some "kafka", none⟩]).map (linkColor [] [])
      = ["#ffffff"] ∧
    ("#ffffff" : String) ≠ "#ffd700" := by
  decide

/-- C6 (amended): node ids are coerced once at construction by the plain
JavaScript String coercion, with no trimming or case change; node lookup
and link endpoint resolution compare exactly these coerced id strings;
highlight membership coerces the graph-side id but tests it against the
raw values supplied by the caller, which are coerced strings for what-if
changed services and uncoerced response values for affected nodes, so
that comparison matches only an exact string member. -/
theorem C6_id_coercion_and_comparison_sites (nodes : List (Option RawNode))
    (links : List (Option RawLink))
    (cn : CleanNode) (hcn : cn ∈ cleanNodes nodes)
    (l : CleanLinkMid) (hl : l ∈ cleanLinks nodes links) :
    (∃ rn : RawNode, some rn ∈ nodes ∧ cn.id = jsStringOpt (originalId rn)) ∧
    (l.source ∈ (cleanNodes nodes).map CleanNode.id ∧
     l.target ∈ (cleanNodes nodes).map CleanNode.id) ∧
    (∀ (affected : List JsId) (nd : CleanNode),
        getNodeColor [] none (errorHighlightedNodes affected) none nd
          = if JsId.str nd.id ∈ affected then "#ffd700" else "#00ff00") ∧
    (∀ (ids : List JsId) (s : String),
        s ∈ whatIfChangedNodes ids ↔ ∃ v ∈ ids, jsIdToString v = s) := by
  refine ⟨cleanNodes_id_coerced nodes cn hcn,
          cleanLinks_endpoints_mem nodes links l hl, ?_, ?_⟩
  · intro affected nd
    by_cases hmem : JsId.str nd.id ∈ affected
    · have hset : JsId.str nd.id ∈ errorHighlightedNodes affected := by
        simpa [errorHighlightedNodes, jsSetOfIds] using
          (jsSetOfIds_fold_mem affected [] (JsId.str nd.id)).mpr (Or.inr hmem)
      simp [getNodeColor, hmem, hset]
    · have hset : JsId.str nd.id ∉ errorHighlightedNodes affected := by
        intro hx
        rcases (jsSetOfIds_fold_mem affected [] (JsId.str nd.id)).mp
            (by simpa [errorHighlightedNodes, jsSetOfIds] using hx) with h | h
        · exact absurd h (List.not_mem_nil _)
        · exact hmem h
      simp [getNodeColor, hmem, hset]
  · intro ids s
    constructor
    · intro hs
      rcases (jsSetOf_fold_mem (ids.map jsIdToString) [] s).mp
          (by simpa [whatIfChangedNodes, jsSetOf] using hs) with h | h
      · exact absurd h (List.not_mem_nil _)
      · simpa using List.mem_map.mp h
    · rintro ⟨v, hv, hvs⟩
      have hm : s ∈ ids.map jsIdToString := List.mem_map.mpr ⟨v, hv, hvs⟩
      simpa [whatIfChangedNodes, jsSetOf] using
        (jsSetOf_fold_mem (ids.map jsIdToString) [] s).mpr (Or.inr hm)

/-- Witness for C6 with a numeric node id 42: the id is coerced once to
the string 42, link endpoints resolve against that string, a highlighted
set holding the exact string renders golden, and the coerced what-if
changed path contains the string 42 for the numeric input. -/
theorem C6_id_coercion_and_comparison_sites_witness :
    (∃ rn : RawNode, some rn ∈ [some (⟨some (.num 42), none⟩ : RawNode)]
        ∧ (⟨"42", "42"⟩ : CleanNode).id = jsStringOpt (originalId rn)) ∧
    ((⟨"42", "42", none, none⟩ : CleanLinkMid).source
        ∈ (cleanNodes [some ⟨some (.num 42), none⟩]).map CleanNode.id ∧
     (⟨"42", "42", none, none⟩ : CleanLinkMid).target
        ∈ (cleanNodes [some ⟨some (.num 42), none⟩]).map CleanNode.id) ∧
    (getNodeColor [] none (errorHighlightedNodes [JsId.str "42"]) none ⟨"42", "42"⟩
        = if JsId.str "42" ∈ [JsId.str "42"] then "#ffd700" else "#00ff00") ∧
    (("42" : String) ∈ whatIfChangedNodes [JsId.num 42]
        ↔ ∃ v ∈ [JsId.num 42], jsIdToString v = "42") :=
  have thm := C6_id_coercion_and_comparison_sites
    [some ⟨some (.num 42), none⟩]
    [some ⟨some (.prim (.num 42)), some (.prim (.str "42")), none, none⟩]
    ⟨"42", "42"⟩ (by decide)
    ⟨"42", "42", none, none⟩ (by decide)
  ⟨thm.1, thm.2.1, thm.2.2.1 [JsId.str "42"] ⟨"42", "42"⟩,
   thm.2.2.2 [JsId.num 42] "42"⟩

/-- Counterexample for C6 as stated: first, an id with surrounding
spaces is kept verbatim by construction, not trimmed; second, highlight
membership does not compare canonical strings: an affected-nodes array
holding the number 42 reaches the highlighted set uncoerced, so the node
whose canonical id is the string 42 renders the default green instead of
golden, while the what-if changed path coerces the same numeric id. -/
theorem C6_counterexample :
    (cleanNodes [some ⟨some (JsId.str " A "), none⟩]).map CleanNode.id = [" A "] ∧
    jsTrim " A " = "A" ∧ (" A " : String) ≠ "A" ∧
    jsIdToString (JsId.num 42) = "42" ∧
    errorHighlightedNodes [JsId.num 42] = [JsId.num 42] ∧
    getNodeColor [] none (errorHighlightedNodes [JsId.num 42]) none ⟨"42", "42"⟩
      = "#00ff00" ∧
    whatIfChangedNodes [JsId.num 42] = ["42"] := by
  decide

/-- Sanity check of the spec-modelled engine on the scenario of the
spec: an error at A reaches B, C and D along the three edges. -/
theorem analyzeError_scenario :
    analyzeError ⟨["A", "B", "C", "D"], [("A", "B"), ("B", "C"), ("B", "D")]⟩ "A"
      = { origin := "A", affected_nodes := ["A", "B", "C", "D"],
          affected_edges := [("A", "B"), ("B", "C"), ("B", "D")],
          notFound := false } := by
  decide

end RCA
